import Mathlib

/-!
Verification of the pylorawan data-plane library against its specification.

Byte strings are modelled as `List Nat` (each entry a byte value `< 256` where
relevant); machine integers are `Nat`/`Int` with explicit bounds carried as
hypotheses.  Python functions that can raise are modelled as `Except PyErr _`
where `PyErr` names the Python exception class that would be raised.  The
external cryptographic collaborators (the AES-128 block cipher and the
AES-CMAC tag from the Cryptodome library) are not part of this repository;
they are passed as explicit function parameters, with the properties the
library relies on (block length preservation, mutual inversion) stated as
hypotheses of the theorems that need them.
-/

/-- The Python exception classes raised by the code under `src/`.
`loRaError`, `chMaskCntlError`, `micError`, `parseMessageError`,
`macPayloadError`, `macCommandParseError`, `macCommandCreateError` come from
`pylorawan/exceptions.py`; `typeError`, `valueError`, `keyError`,
`indexError`, `nameError` are Python built-ins. -/
inductive PyErr where
  | loRaError
  | chMaskCntlError
  | micError
  | parseMessageError
  | mhdrError
  | phyPayloadError
  | macPayloadError
  | macCommandParseError
  | macCommandCreateError
  | typeError
  | valueError
  | keyError
  | indexError
  | nameError
  deriving DecidableEq, Repr

/-- `int.to_bytes(len, byteorder="little")`: little-endian byte decomposition
of `v` into exactly `len` bytes.  (Python raises `OverflowError` when
`v ≥ 256 ^ len`; theorems carry that bound as a hypothesis, so the modelled
behaviour and the code agree on the proven envelope.) -/
def toLE : Nat → Nat → List Nat
  | 0, _ => []
  | n + 1, v => v % 256 :: toLE n (v / 256)

/-- `int.from_bytes(raw, byteorder="little")`. -/
def fromLE : List Nat → Nat
  | [] => 0
  | b :: rest => b + 256 * fromLE rest

theorem length_toLE (n v : Nat) : (toLE n v).length = n := by
  induction n generalizing v with
  | zero => rfl
  | succ k ih => simp [toLE, ih]

theorem fromLE_toLE (n v : Nat) (h : v < 256 ^ n) : fromLE (toLE n v) = v := by
  induction n generalizing v with
  | zero => simp [toLE, fromLE]; omega
  | succ k ih =>
    have hlt : v / 256 < 256 ^ k := by
      rw [Nat.div_lt_iff_lt_mul (by norm_num)]
      calc v < 256 ^ (k + 1) := h
        _ = 256 ^ k * 256 := by ring
    simp [toLE, fromLE, ih (v / 256) hlt]
    omega

theorem toLE_bytes (n v : Nat) : ∀ b ∈ toLE n v, b < 256 := by
  induction n generalizing v with
  | zero => simp [toLE]
  | succ k ih =>
    intro b hb
    simp [toLE] at hb
    rcases hb with h | h
    · omega
    · exact ih _ _ h

/-- Decidable equality for `Except`, used to settle concrete evaluations. -/
instance {e a : Type} [DecidableEq e] [DecidableEq a] : DecidableEq (Except e a) := fun x y =>
  match x, y with
  | .ok u, .ok v =>
    if h : u = v then isTrue (by rw [h]) else isFalse (by intro hc; cases hc; exact h rfl)
  | .error u, .error v =>
    if h : u = v then isTrue (by rw [h]) else isFalse (by intro hc; cases hc; exact h rfl)
  | .ok _, .error _ => isFalse (by intro hc; cases hc)
  | .error _, .ok _ => isFalse (by intro hc; cases hc)

/-! ## `pylorawan/message.py` -/

/-- `MType`: the 3-bit frame-type enumeration. -/
inductive MType where
  | joinRequest
  | joinAccept
  | unconfirmedDataUp
  | unconfirmedDataDown
  | confirmedDataUp
  | confirmedDataDown
  | rfu
  | proprietary
  deriving DecidableEq, Repr

/-- The `Enum` value of each `MType` member. -/
def MType.toNat : MType → Nat
  | .joinRequest => 0x00
  | .joinAccept => 0x01
  | .unconfirmedDataUp => 0x02
  | .unconfirmedDataDown => 0x03
  | .confirmedDataUp => 0x04
  | .confirmedDataDown => 0x05
  | .rfu => 0x06
  | .proprietary => 0x07

/-- `MType(value)`: every value 0..7 names a member (values ≥ 8 cannot reach
this lookup because the parser masks with `0b111`). -/
def MType.ofVal : Nat → Option MType
  | 0 => some .joinRequest
  | 1 => some .joinAccept
  | 2 => some .unconfirmedDataUp
  | 3 => some .unconfirmedDataDown
  | 4 => some .confirmedDataUp
  | 5 => some .confirmedDataDown
  | 6 => some .rfu
  | 7 => some .proprietary
  | _ => none

/-- `MHDR`: frame type + protocol major version.  The constructor's check
`0 <= major < 4` is carried by `MHDR.mk'` below. -/
structure MHDR where
  mtype : MType
  major : Nat
  deriving DecidableEq, Repr

/-- `MHDR.__init__`: rejects an out-of-range major version with `MHDRError`
(the `mtype` type check is enforced by the Lean type). -/
def MHDR.mk' (mtype : MType) (major : Nat) : Except PyErr MHDR :=
  if major < 4 then .ok ⟨mtype, major⟩ else .error .mhdrError

/-- `MHDR.parse`. -/
def MHDR.parse (raw : List Nat) : Except PyErr MHDR :=
  if raw.length ≠ 1 then .error .parseMessageError
  else
    match MType.ofVal ((raw.headD 0 >>> 5) &&& 0b111) with
    | some mtype => MHDR.mk' mtype (raw.headD 0 &&& 0b11)
    | none => .error .valueError

/-- `MHDR.generate` (the `rfu` property is the constant 0). -/
def MHDR.generate (h : MHDR) : List Nat :=
  [h.mtype.toNat <<< 5 ||| 0 <<< 2 ||| h.major]

/-- `FCtrlUplink` field record. -/
structure FCtrlUplink where
  adr : Bool
  adr_ack_req : Bool
  ack : Bool
  class_b : Bool
  f_opts_len : Nat
  deriving DecidableEq, Repr

/-- `FCtrlUplink.parse` of the single control byte. -/
def FCtrlUplink.parse (b : Nat) : FCtrlUplink :=
  { adr := b &&& 0x80 != 0
    adr_ack_req := b &&& 0x40 != 0
    ack := b &&& 0x20 != 0
    class_b := b &&& 0x10 != 0
    f_opts_len := b &&& 0x0F }

/-- `FCtrlUplink.generate`. -/
def FCtrlUplink.generate (f : FCtrlUplink) : List Nat :=
  [f.adr.toNat <<< 7 ||| f.adr_ack_req.toNat <<< 6 ||| f.ack.toNat <<< 5 |||
    f.class_b.toNat <<< 4 ||| f.f_opts_len]

/-- `FCtrlDownlink` field record. -/
structure FCtrlDownlink where
  adr : Bool
  ack : Bool
  f_pending : Bool
  f_opts_len : Nat
  deriving DecidableEq, Repr

/-- `FCtrlDownlink.parse` of the single control byte. -/
def FCtrlDownlink.parse (b : Nat) : FCtrlDownlink :=
  { adr := b &&& 0x80 != 0
    ack := b &&& 0x20 != 0
    f_pending := b &&& 0x10 != 0
    f_opts_len := b &&& 0x0F }

/-- `FCtrlDownlink.generate`. -/
def FCtrlDownlink.generate (f : FCtrlDownlink) : List Nat :=
  [f.adr.toNat <<< 7 ||| f.ack.toNat <<< 5 ||| f.f_pending.toNat <<< 4 ||| f.f_opts_len]

/-- `FHDRUplink` field record. -/
structure FHDRUplink where
  dev_addr : Nat
  f_ctrl : FCtrlUplink
  f_cnt : Nat
  f_opts : List Nat
  deriving DecidableEq, Repr

/-- `FHDRDownlink` field record. -/
structure FHDRDownlink where
  dev_addr : Nat
  f_ctrl : FCtrlDownlink
  f_cnt : Nat
  f_opts : List Nat
  deriving DecidableEq, Repr

/-- `FHDR.generate` (uplink flavour): device address 4 bytes LE, control
byte, counter 2 bytes LE, then the raw options buffer. -/
def FHDRUplink.generate (h : FHDRUplink) : List Nat :=
  toLE 4 h.dev_addr ++ h.f_ctrl.generate ++ toLE 2 h.f_cnt ++ h.f_opts

/-- `FHDR.generate` (downlink flavour). -/
def FHDRDownlink.generate (h : FHDRDownlink) : List Nat :=
  toLE 4 h.dev_addr ++ h.f_ctrl.generate ++ toLE 2 h.f_cnt ++ h.f_opts

/-- `MACPayloadUplink` field record (an `FHDR` plus optional port and opaque
application buffer). -/
structure MACPayloadUplink where
  fhdr : FHDRUplink
  f_port : Option Nat
  frm_payload : List Nat
  deriving DecidableEq, Repr

/-- `MACPayloadDownlink` field record. -/
structure MACPayloadDownlink where
  fhdr : FHDRDownlink
  f_port : Option Nat
  frm_payload : List Nat
  deriving DecidableEq, Repr

/-- `MACPayload.__init__` (uplink flavour): the only value checks are that
`f_port` is `None` or a byte value and that `frm_payload` is a bytes object;
no relation between `f_port` and `frm_payload` is checked. -/
def MACPayloadUplink.mk' (fhdr : FHDRUplink) (f_port : Option Nat)
    (frm_payload : List Nat) : Except PyErr MACPayloadUplink :=
  match f_port with
  | some p => if p < 256 then .ok ⟨fhdr, some p, frm_payload⟩ else .error .macPayloadError
  | none => .ok ⟨fhdr, none, frm_payload⟩

/-- `MACPayload.__init__` (downlink flavour). -/
def MACPayloadDownlink.mk' (fhdr : FHDRDownlink) (f_port : Option Nat)
    (frm_payload : List Nat) : Except PyErr MACPayloadDownlink :=
  match f_port with
  | some p => if p < 256 then .ok ⟨fhdr, some p, frm_payload⟩ else .error .macPayloadError
  | none => .ok ⟨fhdr, none, frm_payload⟩

/-- `MACPayload.parse` (uplink flavour), with the `io.BytesIO` stream reads
rendered as take/drop arithmetic: 4 bytes device address, 1 control byte,
2 counter bytes, `f_opts_len` option bytes, then `read(1) or None` for the
port and `read()` for the application buffer. -/
def MACPayloadUplink.parse (raw : List Nat) : Except PyErr MACPayloadUplink :=
  if raw.length < 7 then .error .parseMessageError
  else
    let dev_addr := fromLE (raw.take 4)
    let f_ctrl := FCtrlUplink.parse (raw.getD 4 0)
    let f_cnt := fromLE ((raw.drop 5).take 2)
    let f_opts := (raw.drop 7).take f_ctrl.f_opts_len
    let rest := raw.drop (7 + f_ctrl.f_opts_len)
    match rest with
    | [] => MACPayloadUplink.mk' ⟨dev_addr, f_ctrl, f_cnt, f_opts⟩ none []
    | p :: tail => MACPayloadUplink.mk' ⟨dev_addr, f_ctrl, f_cnt, f_opts⟩ (some p) tail

/-- `MACPayload.parse` (downlink flavour). -/
def MACPayloadDownlink.parse (raw : List Nat) : Except PyErr MACPayloadDownlink :=
  if raw.length < 7 then .error .parseMessageError
  else
    let dev_addr := fromLE (raw.take 4)
    let f_ctrl := FCtrlDownlink.parse (raw.getD 4 0)
    let f_cnt := fromLE ((raw.drop 5).take 2)
    let f_opts := (raw.drop 7).take f_ctrl.f_opts_len
    let rest := raw.drop (7 + f_ctrl.f_opts_len)
    match rest with
    | [] => MACPayloadDownlink.mk' ⟨dev_addr, f_ctrl, f_cnt, f_opts⟩ none []
    | p :: tail => MACPayloadDownlink.mk' ⟨dev_addr, f_ctrl, f_cnt, f_opts⟩ (some p) tail

/-- `MACPayload.generate` (uplink flavour): the port byte and the
application buffer are emitted only when `f_port is not None`. -/
def MACPayloadUplink.generate (mp : MACPayloadUplink) : List Nat :=
  mp.fhdr.generate ++
    match mp.f_port with
    | none => []
    | some p => toLE 1 p ++ mp.frm_payload

/-- `MACPayload.generate` (downlink flavour). -/
def MACPayloadDownlink.generate (mp : MACPayloadDownlink) : List Nat :=
  mp.fhdr.generate ++
    match mp.f_port with
    | none => []
    | some p => toLE 1 p ++ mp.frm_payload

/-- `DLSettings` field record. -/
structure DLSettings where
  rx1_dr_offset : Nat
  rx2_datarate : Nat
  deriving DecidableEq, Repr

/-- `DLSettings.parse` (callers pass the one-byte slice read from the
stream). -/
def DLSettings.parse (raw : List Nat) : DLSettings :=
  { rx1_dr_offset := (raw.headD 0 >>> 4) &&& 0x07
    rx2_datarate := raw.headD 0 &&& 0x0F }

/-- `DLSettings.generate`. -/
def DLSettings.generate (d : DLSettings) : List Nat :=
  toLE 1 (d.rx1_dr_offset <<< 4 ||| d.rx2_datarate)

/-- `JoinAccept` field record. -/
structure JoinAccept where
  app_nonce : Nat
  net_id : Nat
  dev_addr : Nat
  dl_settings : DLSettings
  rx_delay : Nat
  cf_list : List Nat
  deriving DecidableEq, Repr

/-- `generate_mic` from `pylorawan/encryption.py`: the AES-CMAC tag
truncated to its first 4 bytes.  The CMAC primitive itself is the external
Cryptodome collaborator, passed as the `cmac` parameter. -/
def generate_mic (cmac : List Nat → List Nat → List Nat) (key message : List Nat) :
    List Nat :=
  (cmac key message).take 4

/-- `JoinAccept.generate`: serialize the fields, tag them with the MIC over
`MHDR(JoinAccept, 0) || plaintext`, then apply the block cipher's
*decryption* transform (`aes128_decrypt`, parameter `aesDec`) to
`plaintext || MIC` and prepend the header byte. -/
def JoinAccept.generate (aesDec cmac : List Nat → List Nat → List Nat)
    (app_key : List Nat) (ja : JoinAccept) : List Nat :=
  let bytes_join_accept :=
    toLE 3 ja.app_nonce ++ toLE 3 ja.net_id ++ toLE 4 ja.dev_addr ++
      ja.dl_settings.generate ++ toLE 1 ja.rx_delay ++ ja.cf_list
  let bytes_mhdr := MHDR.generate ⟨.joinAccept, 0⟩
  let mic := generate_mic cmac app_key (bytes_mhdr ++ bytes_join_accept)
  bytes_mhdr ++ aesDec app_key (bytes_join_accept ++ mic)

/-- `JoinAccept.parse`: length check, header check, then the block cipher's
*encryption* transform (`aes128_encrypt`, parameter `aesEnc`) applied to the
wire body recovers `plaintext || MIC`; the MIC is recomputed over
`header || plaintext` and mismatch raises `MICError` before any field is
returned. -/
def JoinAccept.parse (aesEnc cmac : List Nat → List Nat → List Nat)
    (app_key : List Nat) (raw : List Nat) : Except PyErr JoinAccept :=
  if raw.length < 12 then .error .parseMessageError
  else
    match MHDR.parse (raw.take 1) with
    | .error e => .error e
    | .ok mhdr =>
      if mhdr.mtype ≠ MType.joinAccept then .error .parseMessageError
      else
        let decoded := aesEnc app_key (raw.drop 1)
        let mic := decoded.drop (decoded.length - 4)
        let plain := decoded.take (decoded.length - 4)
        if mic ≠ generate_mic cmac app_key (mhdr.generate ++ plain) then
          .error .micError
        else
          .ok
            { app_nonce := fromLE (plain.take 3)
              net_id := fromLE ((plain.drop 3).take 3)
              dev_addr := fromLE ((plain.drop 6).take 4)
              dl_settings := DLSettings.parse ((plain.drop 10).take 1)
              rx_delay := fromLE ((plain.drop 11).take 1)
              cf_list := plain.drop 12 }

/-! ## `pylorawan/mac_commands.py` -/

/-- The MAC-command value family: one constructor per command class, carrying
exactly the fields the Python class stores.  `DevStatusAns.margin` is an
`Int` because the sign-magnitude decoding can produce negative values. -/
inductive MACCommand where
  | linkCheckReq
  | linkADRAns (channel_mask_ack datarate_ack power_ack : Bool)
  | dutyCycleAns
  | rxParamSetupAns (channel_ack rx2_datarate_ack rx1_datarate_offset_ack : Bool)
  | devStatusAns (battery : Nat) (margin : Int)
  | newChannelAns (channel_frequency_ack datarate_range_ack : Bool)
  | rxTimingSetupAns
  | txParamSetupAns
  | dlChannelAns (channel_frequency_ok uplink_frequency_exists : Bool)
  | deviceTimeReq
  | pingSlotInfoReq (periodicity : Nat)
  | beaconFreqAns (status : Bool)
  | pingSlotChannelAns (datarate_status channel_frequency_status : Bool)
  | pingSlotInfoAns
  | linkCheckAns (margin gw_cnt : Nat)
  | linkADRReq (tx_power datarate ch_mask nb_trans ch_mask_cntl : Nat)
  | dutyCycleReq (max_dcycle : Nat)
  | rxParamSetupReq (rx2_datarate rx1_datarate_offset rx2_frequency : Nat)
  | devStatusReq
  | newChannelReq (ch_index ch_frequency min_datarate max_datarate : Nat)
  | rxTimingSetupReq (delay : Nat)
  | txParamSetupReq (max_eirp uplink_dwell_time downlink_dwell_time : Nat)
  | dlChannelReq (ch_index freq : Nat)
  | deviceTimeAns (seconds fractional_second : Nat)
  | pingSlotChannelReq (datarate frequency : Nat)
  | beaconFreqReq (frequency : Nat)
  deriving DecidableEq, Repr

/-- The command classes: the Python class objects stored in the dispatch
tables (distinct from the command values they parse to). -/
inductive CmdClass where
  | linkCheckReqC | linkADRAnsC | dutyCycleAnsC | rxParamSetupAnsC | devStatusAnsC
  | newChannelAnsC | rxTimingSetupAnsC | txParamSetupAnsC | dlChannelAnsC
  | deviceTimeReqC | pingSlotInfoReqC | beaconFreqAnsC | pingSlotChannelAnsC
  | pingSlotInfoAnsC | linkCheckAnsC | linkADRReqC | dutyCycleReqC
  | rxParamSetupReqC | devStatusReqC | newChannelReqC | rxTimingSetupReqC
  | txParamSetupReqC | dlChannelReqC | deviceTimeAnsC | pingSlotChannelReqC
  | beaconFreqReqC
  deriving DecidableEq, Repr

/-- Each class's `SIZE` class attribute (the declared body size in bytes,
excluding the CID byte). -/
def CmdClass.SIZE : CmdClass → Nat
  | .linkCheckReqC => 0
  | .linkADRAnsC => 1
  | .dutyCycleAnsC => 0
  | .rxParamSetupAnsC => 1
  | .devStatusAnsC => 2
  | .newChannelAnsC => 1
  | .rxTimingSetupAnsC => 0
  | .txParamSetupAnsC => 0
  | .dlChannelAnsC => 1
  | .deviceTimeReqC => 0
  | .pingSlotInfoReqC => 1
  | .beaconFreqAnsC => 1
  | .pingSlotChannelAnsC => 1
  | .pingSlotInfoAnsC => 0
  | .linkCheckAnsC => 2
  | .linkADRReqC => 4
  | .dutyCycleReqC => 1
  | .rxParamSetupReqC => 4
  | .devStatusReqC => 0
  | .newChannelReqC => 5
  | .rxTimingSetupReqC => 1
  | .txParamSetupReqC => 1
  | .dlChannelReqC => 4
  | .deviceTimeAnsC => 5
  | .pingSlotChannelReqC => 1
  | .beaconFreqReqC => 3

/-- Each class's `CID` attribute. -/
def CmdClass.CID : CmdClass → Nat
  | .linkCheckReqC => 0x02
  | .linkADRAnsC => 0x03
  | .dutyCycleAnsC => 0x04
  | .rxParamSetupAnsC => 0x05
  | .devStatusAnsC => 0x06
  | .newChannelAnsC => 0x07
  | .rxTimingSetupAnsC => 0x08
  | .txParamSetupAnsC => 0x09
  | .dlChannelAnsC => 0x0A
  | .deviceTimeReqC => 0x0D
  | .pingSlotInfoReqC => 0x10
  | .beaconFreqAnsC => 0x13
  | .pingSlotChannelAnsC => 0x11
  | .pingSlotInfoAnsC => 0x10
  | .linkCheckAnsC => 0x02
  | .linkADRReqC => 0x03
  | .dutyCycleReqC => 0x04
  | .rxParamSetupReqC => 0x05
  | .devStatusReqC => 0x06
  | .newChannelReqC => 0x07
  | .rxTimingSetupReqC => 0x08
  | .txParamSetupReqC => 0x09
  | .dlChannelReqC => 0x0A
  | .deviceTimeAnsC => 0x0D
  | .pingSlotChannelReqC => 0x11
  | .beaconFreqReqC => 0x13

/-- Python `raw[i]` on a bytes object: the byte, or `IndexError` when out of
range. -/
def pyIndex (raw : List Nat) (i : Nat) : Except PyErr Nat :=
  match raw.get? i with
  | some b => .ok b
  | none => .error .indexError

/-- Each class's `parse` classmethod applied to the body buffer.  Byte
accesses `raw[i]` are `pyIndex` (they can raise `IndexError`); slices
`raw[a:b]` are take/drop (Python slicing never raises).  Classes without an
explicit `parse` inherit `MACCommand.parse`, which ignores the buffer. -/
def CmdClass.parse : CmdClass → List Nat → Except PyErr MACCommand
  | .linkCheckReqC, _ => .ok .linkCheckReq
  | .linkADRAnsC, raw => do
    let b0 ← pyIndex raw 0
    .ok (.linkADRAns (b0 &&& 0b1 != 0) (b0 &&& 0b10 != 0) (b0 &&& 0b100 != 0))
  | .dutyCycleAnsC, _ => .ok .dutyCycleAns
  | .rxParamSetupAnsC, raw => do
    let b0 ← pyIndex raw 0
    .ok (.rxParamSetupAns (b0 &&& 0b1 != 0) (b0 &&& 0b10 != 0) (b0 &&& 0b100 != 0))
  | .devStatusAnsC, raw => do
    let b0 ← pyIndex raw 0
    let b1 ← pyIndex raw 1
    let margin := b1 &&& 0b11111
    .ok (.devStatusAns b0 (if b1 &&& 0b100000 != 0 then -(margin : Int) - 1 else margin))
  | .newChannelAnsC, raw => do
    let b0 ← pyIndex raw 0
    .ok (.newChannelAns (b0 &&& 0b1 != 0) (b0 &&& 0b10 != 0))
  | .rxTimingSetupAnsC, _ => .ok .rxTimingSetupAns
  | .txParamSetupAnsC, _ => .ok .txParamSetupAns
  | .dlChannelAnsC, raw => do
    let b0 ← pyIndex raw 0
    .ok (.dlChannelAns (b0 &&& 0b1 != 0) (b0 &&& 0b10 != 0))
  | .deviceTimeReqC, _ => .ok .deviceTimeReq
  | .pingSlotInfoReqC, raw =>
    .ok (.pingSlotInfoReq (fromLE raw &&& 0x07))
  | .beaconFreqAnsC, raw =>
    .ok (.beaconFreqAns (fromLE raw &&& 0b1 != 0))
  | .pingSlotChannelAnsC, raw => do
    let b0 ← pyIndex raw 0
    .ok (.pingSlotChannelAns (b0 &&& 0b10 != 0) (b0 &&& 0b1 != 0))
  | .pingSlotInfoAnsC, _ => .ok .pingSlotInfoAns
  | .linkCheckAnsC, raw => do
    let b0 ← pyIndex raw 0
    let b1 ← pyIndex raw 1
    .ok (.linkCheckAns b0 b1)
  | .linkADRReqC, raw => do
    let b0 ← pyIndex raw 0
    let b3 ← pyIndex raw 3
    .ok (.linkADRReq (b0 &&& 0x0F) (b0 >>> 4) (fromLE ((raw.drop 1).take 2))
      (b3 &&& 0x0F) ((b3 >>> 4) &&& 0b111))
  | .dutyCycleReqC, raw => do
    let b0 ← pyIndex raw 0
    .ok (.dutyCycleReq b0)
  | .rxParamSetupReqC, raw => do
    let b0 ← pyIndex raw 0
    .ok (.rxParamSetupReq (b0 &&& 0x0F) ((b0 >>> 4) &&& 0x07) (fromLE ((raw.drop 1).take 3)))
  | .devStatusReqC, _ => .ok .devStatusReq
  | .newChannelReqC, raw => do
    let b0 ← pyIndex raw 0
    let b4 ← pyIndex raw 4
    .ok (.newChannelReq b0 (fromLE ((raw.drop 1).take 3)) (b4 &&& 0x0F) ((b4 >>> 4) &&& 0x0F))
  | .rxTimingSetupReqC, raw => do
    let b0 ← pyIndex raw 0
    .ok (.rxTimingSetupReq (b0 &&& 0x0F))
  | .txParamSetupReqC, raw => do
    if raw.length ≠ 1 then .error .macCommandParseError
    else do
      let b0 ← pyIndex raw 0
      .ok (.txParamSetupReq (b0 &&& 0x0F) ((b0 >>> 4) &&& 1) ((b0 >>> 5) &&& 1))
  | .dlChannelReqC, raw => do
    let b0 ← pyIndex raw 0
    .ok (.dlChannelReq b0 (fromLE (raw.drop 1)))
  | .deviceTimeAnsC, raw => do
    let b4 ← pyIndex raw 4
    .ok (.deviceTimeAns (fromLE (raw.take 4)) b4)
  | .pingSlotChannelReqC, raw => do
    let b3 ← pyIndex raw 3
    .ok (.pingSlotChannelReq (b3 &&& 0x0F) (fromLE (raw.take 3)))
  | .beaconFreqReqC, raw =>
    .ok (.beaconFreqReq (fromLE raw))

/-- Each command's `generate` method: the CID byte followed by the body
bytes, mirroring each class's byte packing (constructor masking such as
`periodicity & 0x07` in `PingSlotInfoReq.__init__` is applied where the
stored field is already masked). -/
def MACCommand.generate : MACCommand → List Nat
  | .linkCheckReq => [0x02]
  | .linkADRAns cm dr pw => [0x03, pw.toNat <<< 2 ||| dr.toNat <<< 1 ||| cm.toNat]
  | .dutyCycleAns => [0x04]
  | .rxParamSetupAns ch rx2 rx1 => [0x05, rx1.toNat <<< 2 ||| rx2.toNat <<< 1 ||| ch.toNat]
  | .devStatusAns battery margin =>
    [0x06, battery,
      if margin > 0 then ((margin.emod 32).toNat) else ((-margin - 1).emod 32).toNat ||| 0b100000]
  | .newChannelAns fr dr => [0x07, dr.toNat <<< 1 ||| fr.toNat]
  | .rxTimingSetupAns => [0x08]
  | .txParamSetupAns => [0x09]
  | .dlChannelAns ok up => [0x0A, up.toNat <<< 1 ||| ok.toNat]
  | .deviceTimeReq => [0x0D]
  | .pingSlotInfoReq p => [0x10, p]
  | .beaconFreqAns st => [0x13, st.toNat]
  | .pingSlotChannelAns dr fr => [0x11, dr.toNat <<< 1 ||| fr.toNat]
  | .pingSlotInfoAns => [0x10]
  | .linkCheckAns margin gw => [0x02, margin, gw]
  | .linkADRReq tp dr cm nb cl =>
    [0x03, tp &&& 0x0F ||| ((dr &&& 0x0F) <<< 4), cm &&& 0xFF, (cm >>> 8) &&& 0xFF,
      nb &&& 0x0F ||| ((cl &&& 0b111) <<< 4)]
  | .dutyCycleReq d => [0x04, d]
  | .rxParamSetupReq rx2 rx1 freq => [0x05, rx2 &&& 0x0F ||| ((rx1 &&& 0x07) <<< 4)] ++ toLE 3 freq
  | .devStatusReq => [0x06]
  | .newChannelReq ci freq mn mx => [0x07, ci] ++ toLE 3 freq ++ [mn &&& 0x0F ||| (mx &&& 0x0F) <<< 4]
  | .rxTimingSetupReq d => [0x08, d]
  | .txParamSetupReq me ud dd => [0x09, dd <<< 5 ||| ud <<< 4 ||| me]
  | .dlChannelReq ci freq => [0x0A, ci] ++ toLE 3 freq
  | .deviceTimeAns s f => [0x0D] ++ toLE 4 s ++ toLE 1 f
  | .pingSlotChannelReq dr freq => [0x11] ++ toLE 3 freq ++ toLE 1 dr
  | .beaconFreqReq freq => [0x13] ++ toLE 3 freq

/-- `MACCommandDirection`. -/
inductive MACCommandDirection where
  | up
  | down
  deriving DecidableEq, Repr

/-- `MACCommandParser.mac_commands_map`: the CID-indexed dispatch table per
direction. -/
def mac_commands_map : MACCommandDirection → Nat → Option CmdClass
  | .up, 0x02 => some .linkCheckReqC
  | .up, 0x03 => some .linkADRAnsC
  | .up, 0x04 => some .dutyCycleAnsC
  | .up, 0x05 => some .rxParamSetupAnsC
  | .up, 0x06 => some .devStatusAnsC
  | .up, 0x07 => some .newChannelAnsC
  | .up, 0x08 => some .rxTimingSetupAnsC
  | .up, 0x09 => some .txParamSetupAnsC
  | .up, 0x0A => some .dlChannelAnsC
  | .up, 0x0D => some .deviceTimeReqC
  | .up, 0x10 => some .pingSlotInfoReqC
  | .up, 0x11 => some .pingSlotChannelAnsC
  | .up, 0x13 => some .beaconFreqAnsC
  | .down, 0x02 => some .linkCheckAnsC
  | .down, 0x03 => some .linkADRReqC
  | .down, 0x04 => some .dutyCycleReqC
  | .down, 0x05 => some .rxParamSetupReqC
  | .down, 0x06 => some .devStatusReqC
  | .down, 0x07 => some .newChannelReqC
  | .down, 0x08 => some .rxTimingSetupReqC
  | .down, 0x09 => some .txParamSetupReqC
  | .down, 0x0A => some .dlChannelReqC
  | .down, 0x0D => some .deviceTimeAnsC
  | .down, 0x10 => some .pingSlotInfoAnsC
  | .down, 0x11 => some .pingSlotChannelReqC
  | .down, 0x13 => some .beaconFreqReqC
  | _, _ => none

/-- `MACCommandParser.parse`: reads one CID byte at a time, dispatches on the
direction's table (`MACCommandCreateError` on unknown CID), reads the class's
declared `SIZE` body bytes (`MACCommandParseError` when the stream is short),
and decodes with the class's `parse`.  The whole loop is wrapped in
`try/except Exception`: the first error of any kind stops the loop after a
`logging.warning`, and the commands accumulated so far are returned; the
function itself never raises.  The loop is written here with an explicit
fuel argument (`parseCommandsAux`) so that it is structurally recursive and
kernel-computable; `MACCommandParser.parse` instantiates the fuel with the
buffer length, which bounds the number of loop iterations (each iteration
consumes at least the one CID byte). -/
def parseCommandsAux (direction : MACCommandDirection) :
    Nat → List Nat → List MACCommand
  | _, [] => []
  | 0, _ :: _ => []
  | fuel + 1, cid :: rest =>
    match mac_commands_map direction cid with
    | none => []
    | some cls =>
      if rest.length < cls.SIZE then []
      else
        match cls.parse (rest.take cls.SIZE) with
        | .error _ => []
        | .ok cmd => cmd :: parseCommandsAux direction fuel (rest.drop cls.SIZE)

def MACCommandParser.parse (commands_buffer : List Nat)
    (direction : MACCommandDirection) : List MACCommand :=
  parseCommandsAux direction commands_buffer.length commands_buffer

/-! ## `pylorawan/common.py` -/

/-- The 16-byte counter block `A_i` built in `decrypt_frm_payload`:
`0x01 || 0x00000000 || direction(1) || devAddr(4,LE) || counter(4,LE) ||
0x00 || i+1` (the loop overwrites byte 15 with `i + 1`). -/
def secretBlock (dev_addr counter direction i : Nat) : List Nat :=
  [0x01, 0x00, 0x00, 0x00, 0x00] ++ toLE 1 direction ++ toLE 4 dev_addr ++
    toLE 4 counter ++ [0x00, i + 1]

/-- The concatenated keystream `s`: blocks `aes128_encrypt(key, A_i)` for
`i = 0 .. k-1` in loop order (the Python loop sets `s_i[15] = i + 1`). -/
def keystream (aesEnc : List Nat → List Nat → List Nat) (key : List Nat)
    (dev_addr counter direction : Nat) : Nat → List Nat
  | 0 => []
  | k + 1 =>
    keystream aesEnc key dev_addr counter direction k ++
      aesEnc key (secretBlock dev_addr counter direction k)

/-- `decrypt_frm_payload`: XOR of the buffer with `ceil(len/16)` keystream
blocks (Python's `zip` truncates to the shorter operand). -/
def decrypt_frm_payload (aesEnc : List Nat → List Nat → List Nat)
    (frm_payload key : List Nat) (dev_addr counter direction : Nat) : List Nat :=
  let k := (frm_payload.length + 15) / 16
  let s := keystream aesEnc key dev_addr counter direction k
  List.zipWith Nat.xor frm_payload s

/-- `encrypt_frm_payload` is literally a call to `decrypt_frm_payload`. -/
def encrypt_frm_payload (aesEnc : List Nat → List Nat → List Nat)
    (frm_payload key : List Nat) (dev_addr counter direction : Nat) : List Nat :=
  decrypt_frm_payload aesEnc frm_payload key dev_addr counter direction

/-- The two `MACPayload` flavours as they flow into
`generate_mic_mac_payload` / `extract_mac_commands`, where the direction bit
is `int(isinstance(mac_payload, MACPayloadDownlink))`. -/
inductive MacPayloadAny where
  | up (mp : MACPayloadUplink)
  | down (mp : MACPayloadDownlink)
  deriving DecidableEq, Repr

/-- `int(isinstance(mac_payload, MACPayloadDownlink))`. -/
def MacPayloadAny.directionBit : MacPayloadAny → Nat
  | .up _ => 0
  | .down _ => 1

/-- The payload's `generate`. -/
def MacPayloadAny.generate : MacPayloadAny → List Nat
  | .up mp => mp.generate
  | .down mp => mp.generate

/-- The payload's `fhdr.dev_addr`. -/
def MacPayloadAny.devAddr : MacPayloadAny → Nat
  | .up mp => mp.fhdr.dev_addr
  | .down mp => mp.fhdr.dev_addr

/-- The payload's `fhdr.f_cnt`. -/
def MacPayloadAny.fCnt : MacPayloadAny → Nat
  | .up mp => mp.fhdr.f_cnt
  | .down mp => mp.fhdr.f_cnt

/-- `generate_mic_mac_payload`: CMAC tag (truncated to 4 bytes by
`generate_mic`) over `B0 || mhdr_bytes || mac_payload_bytes` with
`B0 = 0x49 || 4 zero bytes || direction || devAddr(4,LE) || fCnt(4,LE) ||
0x00 || len(msg)`.  (`bytes([0, len(msg)])` requires `len(msg) < 256`;
theorems carry that bound.) -/
def generate_mic_mac_payload (cmac : List Nat → List Nat → List Nat)
    (mhdr : MHDR) (mac_payload : MacPayloadAny) (nwk_skey : List Nat) : List Nat :=
  let msg := mhdr.generate ++ mac_payload.generate
  let block_b_0 :=
    [0x49, 0x0, 0x0, 0x0, 0x0, mac_payload.directionBit] ++
      toLE 4 mac_payload.devAddr ++ toLE 4 mac_payload.fCnt ++ [0, msg.length]
  generate_mic cmac nwk_skey (block_b_0 ++ msg)

/-- The `net_type_to_params` dict in `generate_dev_addr_for_network`:
`net_id_type ↦ (prefix, prefix_len, nwk_id_len)`.  Keys 0..7 only; the
guard `net_id_type > 7` runs before the lookup. -/
def net_type_to_params : Nat → Nat × Nat × Nat
  | 0 => (0, 1, 6)
  | 1 => (0b10, 2, 6)
  | 2 => (0b110, 3, 9)
  | 3 => (0b1110, 4, 11)
  | 4 => (0b11110, 5, 12)
  | 5 => (0b111110, 6, 13)
  | 6 => (0b1111110, 7, 15)
  | _ => (0b11111110, 8, 17)

/-- `generate_dev_addr_for_network`, with the `randint(0, 2**nwk_addr_len-1)`
draw passed in as the explicit parameter `nwk_addr` (theorems carry its
range as a hypothesis). -/
def generate_dev_addr_for_network (net_id nwk_addr : Nat) : Except PyErr Nat :=
  let net_id_type := net_id >>> 21
  if net_id_type > 7 then .error .loRaError
  else
    let params := net_type_to_params net_id_type
    let pfx := params.1
    let pfx_len := params.2.1
    let nwk_id_len := params.2.2
    let nwk_addr_len := 32 - nwk_id_len - pfx_len
    let nwk_id := net_id &&& (2 ^ nwk_id_len - 1)
    let msbits := pfx <<< (nwk_id_len + nwk_addr_len) + nwk_id <<< nwk_addr_len
    .ok (msbits + nwk_addr)

/-- The names bound in the module namespace of `pylorawan/common.py` when
its functions execute: the four `import` lines bind `struct`, `typing`,
`Enum`, `ceil`, `randint`, `aes128_encrypt`, `generate_mic`, `LoRaError`,
`MACCommand`, `MACCommandDirection`, `MACCommandParser`, `MHDR`,
`JoinAccept`, `JoinRequest`, `MACPayload`, `MACPayloadDownlink`,
`PHYPayload`; the module-level statements bind `TypeOfKey` and the
seventeen function names. -/
def commonModuleNames : List String :=
  ["struct", "typing", "Enum", "ceil", "randint",
   "aes128_encrypt", "generate_mic", "LoRaError",
   "MACCommand", "MACCommandDirection", "MACCommandParser",
   "MHDR", "JoinAccept", "JoinRequest", "MACPayload", "MACPayloadDownlink",
   "PHYPayload",
   "TypeOfKey", "readable", "unreadable",
   "decrypt_frm_payload", "encrypt_frm_payload",
   "generate_mic_mac_payload", "generate_mic_join_request",
   "verify_mic_join_accept", "verify_mic_join_request",
   "verify_mic_mac_payload", "verify_mic_phy_payload",
   "generate_key", "generate_nwk_s_key", "generate_app_s_key",
   "calc_ping_offset", "generate_dev_addr_for_network",
   "extract_mac_commands"]

/-- The global (non-local) names referenced by the body of
`verify_mic_join_accept`, in CPython evaluation order: the callee
`generate_mic_join_accept` is loaded first, then `phy_payload` for each
attribute access.  (The function's locals are `join_accept` and `app_key`;
neither appears in the body.) -/
def verifyMicJoinAcceptGlobalRefs : List String :=
  ["generate_mic_join_accept", "phy_payload"]

/-- `verify_mic_join_accept(join_accept, app_key)`: executing the body first
resolves each global reference against the module namespace; an unbound name
raises `NameError`.  Both referenced globals are unbound, so the comparison
in the body is never reached (the `.ok` branch below is unreachable because
the guard is false). -/
def verify_mic_join_accept (_join_accept : JoinAccept) (_app_key : List Nat) :
    Except PyErr Bool :=
  if verifyMicJoinAcceptGlobalRefs.all (fun n => commonModuleNames.contains n) then
    .ok true
  else
    .error .nameError

/-! ## `pylorawan/bands` -/

/-- The `ChMaskCtrl` class family from `bands/interface.py`: plain objects
(`RangeChMaskCtrl` carries `start`/`end`; none of them defines
`__getitem__`). -/
inductive ChMaskCtrl where
  | range (start stop : Nat)
  | rfu
  | on125kHz
  | off125kHz
  | allOn
  deriving DecidableEq, Repr

/-- `US902_928.table_ch_mask_cntl_value` (identical in `AU915_928`). -/
def table_ch_mask_cntl_value_US902_928 : Nat → Option ChMaskCtrl
  | 0 => some (.range 0 15)
  | 1 => some (.range 16 31)
  | 2 => some (.range 32 47)
  | 3 => some (.range 48 63)
  | 4 => some (.range 64 71)
  | 5 => some .rfu
  | 6 => some .on125kHz
  | 7 => some .off125kHz
  | _ => none

/-- `Band.get_ch_mask_cntl_by_ch_index`: computes `table_index = index // 16`
and evaluates `table_index not in table or table[table_index]["type"] != "range"`.
When `table_index` is absent the left disjunct short-circuits to `True` and
`ChMaskCntlError` is raised; when it is present, Python evaluates
`table[table_index]["type"]`, and subscripting a `ChMaskCtrl` instance
(which defines no `__getitem__`) raises `TypeError` before the comparison,
so the `return table_index` line is unreachable for every in-table row. -/
def get_ch_mask_cntl_by_ch_index (table : Nat → Option ChMaskCtrl)
    (index : Nat) : Except PyErr Nat :=
  let table_index := index / 16
  match table table_index with
  | none => .error .chMaskCntlError
  | some _ => .error .typeError

/-- `MaxPayloadSizeWithDwell`: the two payload-size columns, `none` for the
"Not defined" dwell-1 entries. -/
structure MaxPayloadSizeWithDwell where
  dr : Nat
  n_dwell_0 : Option Nat
  n_dwell_1 : Option Nat
  deriving DecidableEq, Repr

/-- `AU915_928.table_maximum_payload_size` (RP2_1_0_3). -/
def table_maximum_payload_size_AU915_928 : Nat → Option MaxPayloadSizeWithDwell
  | 0 => some ⟨0, some 51, none⟩
  | 1 => some ⟨1, some 51, none⟩
  | 2 => some ⟨2, some 115, some 11⟩
  | 3 => some ⟨3, some 222, some 53⟩
  | 4 => some ⟨4, some 222, some 125⟩
  | 5 => some ⟨5, some 222, some 222⟩
  | 6 => some ⟨5, some 222, some 222⟩
  | 7 => some ⟨5, some 50, some 50⟩
  | 8 => some ⟨5, some 53, some 53⟩
  | 9 => some ⟨5, some 129, some 129⟩
  | 10 => some ⟨5, some 222, some 222⟩
  | 11 => some ⟨5, some 222, some 222⟩
  | 12 => some ⟨5, some 222, some 222⟩
  | 13 => some ⟨5, some 222, some 222⟩
  | _ => none

/-- `AS923.table_maximum_payload_size` (RP2_1_0_2). -/
def table_maximum_payload_size_AS923 : Nat → Option MaxPayloadSizeWithDwell
  | 0 => some ⟨0, some 51, none⟩
  | 1 => some ⟨1, some 51, none⟩
  | 2 => some ⟨2, some 51, some 11⟩
  | 3 => some ⟨3, some 115, some 53⟩
  | 4 => some ⟨4, some 222, some 125⟩
  | 5 => some ⟨5, some 222, some 242⟩
  | 6 => some ⟨6, some 222, some 242⟩
  | 7 => some ⟨7, some 222, some 242⟩
  | _ => none

/-- `get_max_payload_size(self, datarate, dwell_time=0)` as written
identically in `AU915_928` and `AS923`: the table row for
`datarate.index` is fetched first (`KeyError` when absent), then
`dwell_time == 0` returns the dwell-0 column, `dwell_time == 1` returns the
dwell-1 column (Python `None` when the column is "Not defined" — no
exception), and anything else raises `ValueError`.  `dwell_time` is an
`Int` so that negative arguments are covered. -/
def bandGetMaxPayloadSize (table : Nat → Option MaxPayloadSizeWithDwell)
    (datarate_index : Nat) (dwell_time : Int) : Except PyErr (Option Nat) :=
  match table datarate_index with
  | none => .error .keyError
  | some max_size =>
    if dwell_time = 0 then .ok max_size.n_dwell_0
    else if dwell_time = 1 then .ok max_size.n_dwell_1
    else .error .valueError

/-- `AU915_928.get_max_payload_size`. -/
def AU915_928.get_max_payload_size (datarate_index : Nat) (dwell_time : Int) :
    Except PyErr (Option Nat) :=
  bandGetMaxPayloadSize table_maximum_payload_size_AU915_928 datarate_index dwell_time

/-- `AS923.get_max_payload_size`. -/
def AS923.get_max_payload_size (datarate_index : Nat) (dwell_time : Int) :
    Except PyErr (Option Nat) :=
  bandGetMaxPayloadSize table_maximum_payload_size_AS923 datarate_index dwell_time

/-! ## Claim theorems -/

/-- C1 (code bug): the encode/decode round-trip of the MAC-command family
fails at the documented boundary value `margin = 0` of `DevStatusAns`:
`generate` takes the negative sign-magnitude branch whenever `margin > 0` is
false (i.e. also at zero), emitting status byte `0x3F`, which re-parses as
`margin = -32`, not `0`. -/
theorem c1_devstatusans_margin_zero_roundtrip_fails :
    MACCommand.generate (.devStatusAns 255 0) = [0x06, 0xFF, 0x3F] ∧
    CmdClass.parse .devStatusAnsC ((MACCommand.generate (.devStatusAns 255 0)).drop 1) =
      .ok (.devStatusAns 255 (-32)) ∧
    MACCommand.devStatusAns 255 (-32) ≠ MACCommand.devStatusAns 255 0 := by
  refine ⟨by decide, by decide, by decide⟩

/-- C2 (code bug): `get_ch_mask_cntl_by_ch_index` never returns a row index:
for every channel index whose row 0..7 exists in the table (all indices
below 128) the subscript `table[row]["type"]` raises `TypeError`, because
the table stores `ChMaskCtrl` objects and not dicts; the named
`ChMaskCntlError` is raised only when the row itself is absent (index 128
and above).  In particular indices 0, 15, 16, 71 do not return rows
0, 0, 1, 4, and index 72 does not raise `ChMaskCntlError`. -/
theorem c2_ch_mask_cntl_lookup_always_raises :
    get_ch_mask_cntl_by_ch_index table_ch_mask_cntl_value_US902_928 0 = .error .typeError ∧
    get_ch_mask_cntl_by_ch_index table_ch_mask_cntl_value_US902_928 15 = .error .typeError ∧
    get_ch_mask_cntl_by_ch_index table_ch_mask_cntl_value_US902_928 16 = .error .typeError ∧
    get_ch_mask_cntl_by_ch_index table_ch_mask_cntl_value_US902_928 71 = .error .typeError ∧
    get_ch_mask_cntl_by_ch_index table_ch_mask_cntl_value_US902_928 72 = .error .typeError ∧
    get_ch_mask_cntl_by_ch_index table_ch_mask_cntl_value_US902_928 128 = .error .chMaskCntlError ∧
    (∀ index : Nat, get_ch_mask_cntl_by_ch_index table_ch_mask_cntl_value_US902_928 index ≠
      .ok (index / 16)) := by
  refine ⟨by decide, by decide, by decide, by decide, by decide, by decide, ?_⟩
  intro index
  unfold get_ch_mask_cntl_by_ch_index
  cases h : table_ch_mask_cntl_value_US902_928 (index / 16) <;> simp [h]

/-- C4 (counterexample): looking up the dwell-1 payload-size column for DR0
in AU915-928 returns Python `None` — a successful return, not an error. -/
theorem c4_counterexample_dwell1_undefined_returns_none :
    AU915_928.get_max_payload_size 0 1 = .ok none := by decide

/-- C4 (amended): for both dwell-time-sensitive bands, a dwell-time argument
outside {0, 1} always raises (`ValueError` when the datarate row exists,
`KeyError` otherwise); but when dwell-time is 1 and the dwell-1 column is
undefined (DR0, DR1), the lookup returns `None` instead of raising. -/
theorem c4_dwell_time_lookup :
    (∀ (dr : Nat) (d : Int), d ≠ 0 → d ≠ 1 →
      ∃ e, AU915_928.get_max_payload_size dr d = .error e) ∧
    (∀ (dr : Nat) (d : Int), d ≠ 0 → d ≠ 1 →
      ∃ e, AS923.get_max_payload_size dr d = .error e) ∧
    AU915_928.get_max_payload_size 0 1 = .ok none ∧
    AU915_928.get_max_payload_size 1 1 = .ok none ∧
    AS923.get_max_payload_size 0 1 = .ok none ∧
    AS923.get_max_payload_size 1 1 = .ok none ∧
    AU915_928.get_max_payload_size 2 1 = .ok (some 11) ∧
    AU915_928.get_max_payload_size 0 0 = .ok (some 51) := by
  refine ⟨?_, ?_, by decide, by decide, by decide, by decide, by decide, by decide⟩
  · intro dr d h0 h1
    unfold AU915_928.get_max_payload_size bandGetMaxPayloadSize
    cases table_maximum_payload_size_AU915_928 dr with
    | none => exact ⟨.keyError, rfl⟩
    | some e => exact ⟨.valueError, by simp [h0, h1]⟩
  · intro dr d h0 h1
    unfold AS923.get_max_payload_size bandGetMaxPayloadSize
    cases table_maximum_payload_size_AS923 dr with
    | none => exact ⟨.keyError, rfl⟩
    | some e => exact ⟨.valueError, by simp [h0, h1]⟩

/-- C4 witness: the amended theorem applied at concrete inputs. -/
theorem c4_dwell_time_lookup_witness :
    (∃ e, AU915_928.get_max_payload_size 0 2 = .error e) ∧
    (∃ e, AS923.get_max_payload_size 0 (-1) = .error e) :=
  ⟨c4_dwell_time_lookup.1 0 2 (by decide) (by decide),
    c4_dwell_time_lookup.2.1 0 (-1) (by decide) (by decide)⟩

/-- C8 (code bug): the stream parser's policy fails on a fully well-formed
buffer: the wire encoding of a downlink `PingSlotChannelReq` is 5 bytes
(CID plus 4 body bytes, as emitted by its own `generate` and consumed by its
own class `parse`), but the class declares `SIZE = 1`, so the stream parser
hands its `parse` a 1-byte buffer, `raw[3]` raises `IndexError`, the
`except` swallows it, and the command (and everything after it) is dropped:
the parser returns `[]`, not the decoded command list. -/
theorem c8_pingslotchannelreq_stream_dropped :
    MACCommand.generate (.pingSlotChannelReq 0 0) = [0x11, 0x00, 0x00, 0x00, 0x00] ∧
    MACCommandParser.parse (MACCommand.generate (.pingSlotChannelReq 0 0))
      .down = [] ∧
    mac_commands_map .down 0x11 = some .pingSlotChannelReqC ∧
    CmdClass.SIZE .pingSlotChannelReqC = 1 ∧
    CmdClass.parse .pingSlotChannelReqC [0x00] = .error .indexError ∧
    CmdClass.parse .pingSlotChannelReqC [0x00, 0x00, 0x00, 0x00] =
      .ok (.pingSlotChannelReq 0 0) ∧
    MACCommandParser.parse [0x06, 0xFF, 0x1F, 0x02, 0x00] .up =
      [.devStatusAns 255 31, .linkCheckReq] := by
  refine ⟨by decide, by decide, by decide, by decide, by decide, by decide, by decide⟩

/-- C10: `verify_mic_join_accept` raises `NameError` on every input and so
never returns a boolean verdict: neither of the global names its body
references (`generate_mic_join_accept`, which does not exist anywhere in the
module, and `phy_payload`, used in place of the `join_accept` parameter) is
bound in the module namespace. -/
theorem c10_verify_mic_join_accept_always_nameerror (join_accept : JoinAccept)
    (app_key : List Nat) :
    verify_mic_join_accept join_accept app_key = .error .nameError ∧
    ("phy_payload" ∈ commonModuleNames → False) ∧
    ("generate_mic_join_accept" ∈ commonModuleNames → False) :=
  ⟨rfl, by decide, by decide⟩

theorem length_secretBlock (dev_addr counter direction i : Nat) :
    (secretBlock dev_addr counter direction i).length = 16 := by
  simp [secretBlock, length_toLE]

theorem length_keystream (aesEnc : List Nat → List Nat → List Nat)
    (key : List Nat) (dev_addr counter direction : Nat) (k : Nat)
    (h : ∀ b : List Nat, b.length = 16 → (aesEnc key b).length = 16) :
    (keystream aesEnc key dev_addr counter direction k).length = 16 * k := by
  induction k with
  | zero => rfl
  | succ m ih =>
    simp [keystream, ih, h _ (length_secretBlock dev_addr counter direction m)]
    ring

theorem zipWith_xor_cancel (P s : List Nat) (h : P.length ≤ s.length) :
    List.zipWith Nat.xor (List.zipWith Nat.xor P s) s = P := by
  induction P generalizing s with
  | nil => simp
  | cons p tl ih =>
    cases s with
    | nil => simp at h
    | cons b bs =>
      simp only [List.zipWith_cons_cons, List.length_cons, List.cons.injEq] at h ⊢
      exact ⟨Nat.xor_cancel_right b p, ih bs (by omega)⟩

/-- C5: the payload stream cipher is an involution — applying
`decrypt_frm_payload` twice with the same key, device address, counter and
direction returns the original buffer for every payload (the keystream
depends only on the buffer's length, which the XOR preserves) — and
`encrypt_frm_payload` is the identical operation on all inputs.  The only
assumption is the external block cipher's interface: a 16-byte block maps to
a 16-byte block. -/
theorem c5_frm_payload_cipher_involution
    (aesEnc : List Nat → List Nat → List Nat)
    (frm_payload key : List Nat) (dev_addr counter direction : Nat)
    (h : ∀ b : List Nat, b.length = 16 → (aesEnc key b).length = 16) :
    decrypt_frm_payload aesEnc
        (decrypt_frm_payload aesEnc frm_payload key dev_addr counter direction)
        key dev_addr counter direction = frm_payload ∧
    encrypt_frm_payload aesEnc frm_payload key dev_addr counter direction =
      decrypt_frm_payload aesEnc frm_payload key dev_addr counter direction := by
  constructor
  · have hslen :
        (keystream aesEnc key dev_addr counter direction
          ((frm_payload.length + 15) / 16)).length = 16 * ((frm_payload.length + 15) / 16) :=
      length_keystream aesEnc key dev_addr counter direction _ h
    have hle : frm_payload.length ≤ 16 * ((frm_payload.length + 15) / 16) := by
      have := Nat.div_add_mod (frm_payload.length + 15) 16
      have := Nat.mod_lt (frm_payload.length + 15) (show 0 < 16 by norm_num)
      omega
    have hinner :
        (List.zipWith Nat.xor frm_payload
          (keystream aesEnc key dev_addr counter direction
            ((frm_payload.length + 15) / 16))).length = frm_payload.length := by
      rw [List.length_zipWith, hslen]
      omega
    simp only [decrypt_frm_payload]
    rw [hinner]
    exact zipWith_xor_cancel frm_payload _ (by rw [hslen]; exact hle)
  · rfl

/-- C5 witness: the involution applied to a concrete 17-byte payload
(crossing a block boundary) with a concrete block-cipher instance. -/
theorem c5_frm_payload_cipher_involution_witness :
    decrypt_frm_payload (fun _ _ => List.replicate 16 7)
        (decrypt_frm_payload (fun _ _ => List.replicate 16 7)
          (List.range 17) [1, 2] 0x11223344 5 1)
        [1, 2] 0x11223344 5 1 = List.range 17 ∧
    encrypt_frm_payload (fun _ _ => List.replicate 16 7) (List.range 17)
        [1, 2] 0x11223344 5 1 =
      decrypt_frm_payload (fun _ _ => List.replicate 16 7) (List.range 17)
        [1, 2] 0x11223344 5 1 :=
  c5_frm_payload_cipher_involution (fun _ _ => List.replicate 16 7)
    (List.range 17) [1, 2] 0x11223344 5 1 (fun _ _ => by simp)

/-- C7 (counterexample): the `MACPayload` constructor does not enforce the
port/buffer invariant — a value with `f_port` absent and a non-empty
`frm_payload` is constructed without error. -/
theorem c7_counterexample_portless_nonempty_constructible :
    MACPayloadUplink.mk' ⟨0, ⟨false, false, false, false, 0⟩, 0, []⟩ none [1] =
      .ok ⟨⟨0, ⟨false, false, false, false, 0⟩, 0, []⟩, none, [1]⟩ ∧
    ([1] : List Nat) ≠ [] := by
  refine ⟨by decide, by decide⟩

/-- C7 (amended): the port byte is present on the wire if and only if the
application buffer participates — `parse` never produces a value with
`f_port` absent and a non-empty buffer, and `generate` emits no
application-buffer byte when `f_port` is absent (its output is exactly the
FHDR bytes) — but the constructor itself does not enforce the invariant: a
value with `f_port = None` and a non-empty (never-serialized) buffer is
constructible. -/
theorem c7_port_buffer_invariant :
    (∀ (raw : List Nat) (mp : MACPayloadUplink),
      MACPayloadUplink.parse raw = .ok mp → mp.f_port = none → mp.frm_payload = []) ∧
    (∀ (raw : List Nat) (mp : MACPayloadDownlink),
      MACPayloadDownlink.parse raw = .ok mp → mp.f_port = none → mp.frm_payload = []) ∧
    (∀ mp : MACPayloadUplink, mp.f_port = none → mp.generate = mp.fhdr.generate) ∧
    (∀ mp : MACPayloadDownlink, mp.f_port = none → mp.generate = mp.fhdr.generate) := by
  refine ⟨?_, ?_, ?_, ?_⟩
  · intro raw mp hp hnone
    unfold MACPayloadUplink.parse at hp
    by_cases h7 : raw.length < 7
    · simp [h7] at hp
    · simp only [h7, if_false] at hp
      cases hrest : raw.drop (7 + (FCtrlUplink.parse (raw.getD 4 0)).f_opts_len) with
      | nil =>
        rw [hrest] at hp
        simp [MACPayloadUplink.mk'] at hp
        rw [← hp]
      | cons p tail =>
        rw [hrest] at hp
        simp only [MACPayloadUplink.mk'] at hp
        by_cases hpv : p < 256
        · simp [hpv] at hp
          rw [← hp] at hnone
          simp at hnone
        · simp [hpv] at hp
  · intro raw mp hp hnone
    unfold MACPayloadDownlink.parse at hp
    by_cases h7 : raw.length < 7
    · simp [h7] at hp
    · simp only [h7, if_false] at hp
      cases hrest : raw.drop (7 + (FCtrlDownlink.parse (raw.getD 4 0)).f_opts_len) with
      | nil =>
        rw [hrest] at hp
        simp [MACPayloadDownlink.mk'] at hp
        rw [← hp]
      | cons p tail =>
        rw [hrest] at hp
        simp only [MACPayloadDownlink.mk'] at hp
        by_cases hpv : p < 256
        · simp [hpv] at hp
          rw [← hp] at hnone
          simp at hnone
        · simp [hpv] at hp
  · intro mp hnone
    simp [MACPayloadUplink.generate, hnone]
  · intro mp hnone
    simp [MACPayloadDownlink.generate, hnone]

/-- C7 witness: the amended theorem applied to a concrete 7-byte frame
(no port byte on the wire). -/
theorem c7_port_buffer_invariant_witness :
    (⟨⟨0, ⟨false, false, false, false, 0⟩, 0, []⟩, none, []⟩ :
      MACPayloadUplink).frm_payload = [] :=
  c7_port_buffer_invariant.1 [0, 0, 0, 0, 0, 0, 0]
    ⟨⟨0, ⟨false, false, false, false, 0⟩, 0, []⟩, none, []⟩ (by decide) rfl

/-- The `B0` block exactly as the specification words it:
`0x49 || 0x00000000 || direction(1) || devAddr(4,LE) ||
frameCounter(4,LE, zero-extended from 16 bits) || 0x00 || totalLength(1)`.
This definition follows the spec's sentence (for comparison against the
code's `generate_mic_mac_payload`), not the source. -/
def specB0 (direction devAddr frameCounter totalLength : Nat) : List Nat :=
  [0x49] ++ [0x00, 0x00, 0x00, 0x00] ++ [direction] ++ toLE 4 devAddr ++
    toLE 4 frameCounter ++ [0x00] ++ [totalLength]

/-- The data-frame MIC exactly as the specification words it: the first 4
bytes of the AES-CMAC under the network session key of
`B0 || header_bytes || payload_bytes`. -/
def specDataFrameMic (cmac : List Nat → List Nat → List Nat)
    (nwk_skey headerBytes payloadBytes : List Nat)
    (direction devAddr frameCounter : Nat) : List Nat :=
  (cmac nwk_skey
    (specB0 direction devAddr frameCounter (headerBytes ++ payloadBytes).length ++
      headerBytes ++ payloadBytes)).take 4

/-- C6: `generate_mic_mac_payload` computes exactly the spec's formula — the
first 4 bytes of the CMAC under the network session key of
`B0 || header_bytes || payload_bytes` with `B0` as prescribed, the direction
byte being 0 for an uplink payload and 1 for a downlink payload.  The
hypotheses delimit the envelope on which the byte encodings used by the code
(`struct.pack("<LL", ...)`, `bytes([0, len(msg)])`) are defined.  The final
two conjuncts also expose the total-length byte as the explicit field
arithmetic of the serialized message. -/
theorem c6_generate_mic_mac_payload_formula
    (cmac : List Nat → List Nat → List Nat) (mhdr : MHDR)
    (mac_payload : MacPayloadAny) (nwk_skey : List Nat)
    (h1 : mac_payload.devAddr < 2 ^ 32) (h2 : mac_payload.fCnt < 2 ^ 16)
    (h3 : (mhdr.generate ++ mac_payload.generate).length < 256) :
    generate_mic_mac_payload cmac mhdr mac_payload nwk_skey =
      specDataFrameMic cmac nwk_skey mhdr.generate mac_payload.generate
        mac_payload.directionBit mac_payload.devAddr mac_payload.fCnt ∧
    (∀ mp : MACPayloadUplink, (MacPayloadAny.up mp).directionBit = 0) ∧
    (∀ mp : MACPayloadDownlink, (MacPayloadAny.down mp).directionBit = 1) ∧
    (∀ mp : MACPayloadUplink,
      (mhdr.generate ++ (MacPayloadAny.up mp).generate).length =
        8 + mp.fhdr.f_opts.length +
          (match mp.f_port with
            | none => 0
            | some _ => 1 + mp.frm_payload.length)) ∧
    (∀ mp : MACPayloadDownlink,
      (mhdr.generate ++ (MacPayloadAny.down mp).generate).length =
        8 + mp.fhdr.f_opts.length +
          (match mp.f_port with
            | none => 0
            | some _ => 1 + mp.frm_payload.length)) := by
  refine ⟨?_, fun _ => rfl, fun _ => rfl, ?_, ?_⟩
  · simp only [generate_mic_mac_payload, specDataFrameMic, specB0, generate_mic,
      List.length_append, List.append_assoc, List.cons_append, List.nil_append]
  · intro mp
    simp only [MacPayloadAny.generate, MACPayloadUplink.generate, MHDR.generate,
      FHDRUplink.generate, FCtrlUplink.generate, List.length_append,
      length_toLE, List.length_cons, List.length_nil]
    cases mp.f_port <;> simp [length_toLE] <;> omega
  · intro mp
    simp only [MacPayloadAny.generate, MACPayloadDownlink.generate, MHDR.generate,
      FHDRDownlink.generate, FCtrlDownlink.generate, List.length_append,
      length_toLE, List.length_cons, List.length_nil]
    cases mp.f_port <;> simp [length_toLE] <;> omega

/-- C6 witness: the formula theorem applied to a concrete confirmed-uplink
payload. -/
theorem c6_generate_mic_mac_payload_formula_witness :
    generate_mic_mac_payload (fun _ m => m) ⟨.confirmedDataUp, 0⟩
        (.up ⟨⟨0x11223344, ⟨false, false, false, false, 0⟩, 5, []⟩, some 1, [1, 2, 3]⟩)
        [9] =
      specDataFrameMic (fun _ m => m) [9]
        (MHDR.generate ⟨.confirmedDataUp, 0⟩)
        (MacPayloadAny.generate
          (.up ⟨⟨0x11223344, ⟨false, false, false, false, 0⟩, 5, []⟩, some 1, [1, 2, 3]⟩))
        0 0x11223344 5 :=
  (c6_generate_mic_mac_payload_formula (fun _ m => m) ⟨.confirmedDataUp, 0⟩
    (.up ⟨⟨0x11223344, ⟨false, false, false, false, 0⟩, 5, []⟩, some 1, [1, 2, 3]⟩)
    [9] (by decide) (by decide) (by decide)).1

/-- C9: device-address allocation.  When the network-id type
`net_id >> 21` exceeds 7 the function raises the named `LoRaError`
(final conjunct, for every input); otherwise, for every draw
`nwk_addr < 2^nwkAddrLen` of the modelled `randint`, the result is exactly
`prefix << (nwkIdLen + nwkAddrLen) + (net_id mod 2^nwkIdLen) << nwkAddrLen
+ nwk_addr` with `(prefix, prefixLen, nwkIdLen)` from the fixed table and
`nwkAddrLen = 32 - nwkIdLen - prefixLen`, and the result fits in 32 bits. -/
theorem c9_generate_dev_addr_for_network
    (net_id nwk_addr pfx pfx_len nwk_id_len : Nat)
    (hp : net_type_to_params (net_id >>> 21) = (pfx, pfx_len, nwk_id_len))
    (hty : net_id >>> 21 ≤ 7)
    (hr : nwk_addr < 2 ^ (32 - nwk_id_len - pfx_len)) :
    generate_dev_addr_for_network net_id nwk_addr =
      .ok (pfx <<< (nwk_id_len + (32 - nwk_id_len - pfx_len)) +
        (net_id % 2 ^ nwk_id_len) <<< (32 - nwk_id_len - pfx_len) + nwk_addr) ∧
    pfx <<< (nwk_id_len + (32 - nwk_id_len - pfx_len)) +
      (net_id % 2 ^ nwk_id_len) <<< (32 - nwk_id_len - pfx_len) + nwk_addr < 2 ^ 32 ∧
    (∀ n r : Nat, n >>> 21 > 7 → generate_dev_addr_for_network n r = .error .loRaError) := by
  refine ⟨?_, ?_, ?_⟩
  · unfold generate_dev_addr_for_network
    rw [if_neg (by omega)]
    simp only [hp, Nat.and_pow_two_sub_one_eq_mod]
  · have hmod : net_id % 2 ^ nwk_id_len < 2 ^ nwk_id_len :=
      Nat.mod_lt _ (Nat.pos_pow_of_pos _ (by norm_num))
    interval_cases ht : (net_id >>> 21) <;>
      · simp only [net_type_to_params, Prod.mk.injEq] at hp
        obtain ⟨he1, he2, he3⟩ := hp
        subst he1
        subst he2
        subst he3
        simp only [Nat.shiftLeft_eq] at hmod ⊢
        norm_num at hmod ⊢
        omega
  · intro n r hn
    unfold generate_dev_addr_for_network
    rw [if_pos (by omega)]

/-- C9 witness: the allocation theorem applied to the concrete network id
`0x600000` (type 3) and draw 5. -/
theorem c9_generate_dev_addr_for_network_witness :
    generate_dev_addr_for_network 0x600000 5 =
      .ok ((0b1110 : Nat) <<< (11 + (32 - 11 - 4)) +
        (0x600000 % 2 ^ 11) <<< (32 - 11 - 4) + 5) :=
  (c9_generate_dev_addr_for_network 0x600000 5 0b1110 4 11 (by decide) (by decide)
    (by decide)).1

theorem take_append_len {l1 l2 : List Nat} {n : Nat} (h : l1.length = n) :
    (l1 ++ l2).take n = l1 := by
  subst h
  exact List.take_left l1 l2

theorem drop_append_len {l1 l2 : List Nat} {n : Nat} (h : l1.length = n) :
    (l1 ++ l2).drop n = l2 := by
  subst h
  exact List.drop_left l1 l2

theorem dlsettings_roundtrip (o d : Nat) (ho : o ≤ 7) (hd : d ≤ 15) :
    DLSettings.parse (DLSettings.generate ⟨o, d⟩) = ⟨o, d⟩ := by
  interval_cases o <;> interval_cases d <;> decide

theorem mhdr_joinaccept_generate : MHDR.generate ⟨.joinAccept, 0⟩ = [0x20] := by decide

theorem mhdr_parse_0x20 : MHDR.parse [0x20] = .ok ⟨.joinAccept, 0⟩ := by decide

/-- C3: the join-accept asymmetric round-trip.  `generate` applies the block
cipher's decryption transform `aesDec` to `plaintext || MIC` (see its
definition), `parse` applies the encryption transform `aesEnc`, and for
every `JoinAccept` whose `cf_list` keeps the encrypted body 16-byte aligned
(length 0 or 16), `parse (generate ja key) key = ok ja` field by field
(first conjunct).  Second conjunct: any wire buffer whose header byte is the
join-accept header and whose recovered body fails the MIC recomputation —
which is what corrupting body bytes produces, tag collisions of the external
AES-CMAC collaborator aside — is rejected with the distinct `MICError`
before any field is returned, never parsed as different fields.  The cipher
hypotheses are the external collaborator's interface: CMAC tags are 16
bytes, the decryption transform preserves length, and encryption inverts
decryption on block-aligned buffers. -/
theorem c3_joinaccept_roundtrip
    (aesEnc aesDec cmac : List Nat → List Nat → List Nat)
    (app_key : List Nat) (ja : JoinAccept) (w : List Nat)
    (hcm : ∀ m : List Nat, (cmac app_key m).length = 16)
    (hdlen : ∀ b : List Nat, (aesDec app_key b).length = b.length)
    (hinv : ∀ b : List Nat, b.length % 16 = 0 → aesEnc app_key (aesDec app_key b) = b)
    (han : ja.app_nonce < 2 ^ 24) (hni : ja.net_id < 2 ^ 24)
    (hda : ja.dev_addr < 2 ^ 32)
    (ho : ja.dl_settings.rx1_dr_offset ≤ 7) (hd : ja.dl_settings.rx2_datarate ≤ 15)
    (hrx : ja.rx_delay < 256)
    (hcf : ja.cf_list.length = 0 ∨ ja.cf_list.length = 16)
    (hw12 : 12 ≤ w.length) (hwh : w.take 1 = [0x20])
    (hmis : (aesEnc app_key (w.drop 1)).drop ((aesEnc app_key (w.drop 1)).length - 4) ≠
      generate_mic cmac app_key
        (0x20 :: (aesEnc app_key (w.drop 1)).take ((aesEnc app_key (w.drop 1)).length - 4))) :
    JoinAccept.parse aesEnc cmac app_key (JoinAccept.generate aesDec cmac app_key ja) =
      .ok ja ∧
    JoinAccept.parse aesEnc cmac app_key w = .error .micError := by
  constructor
  · obtain ⟨an, ni, da, dls, rx, cf⟩ := ja
    obtain ⟨o, d⟩ := dls
    simp only at han hni hda ho hd hrx hcf
    set A := toLE 3 an with hA
    set B := toLE 3 ni with hB
    set C := toLE 4 da with hC
    set D := DLSettings.generate ⟨o, d⟩ with hD
    set E' := toLE 1 rx with hE
    have lA : A.length = 3 := length_toLE 3 an
    have lB : B.length = 3 := length_toLE 3 ni
    have lC : C.length = 4 := length_toLE 4 da
    have lD : D.length = 1 := by rw [hD]; simp [DLSettings.generate, length_toLE]
    have lE : E'.length = 1 := length_toLE 1 rx
    set plain := A ++ B ++ C ++ D ++ E' ++ cf with hplain
    have hplain' : plain = A ++ (B ++ (C ++ (D ++ (E' ++ cf)))) := by
      simp [hplain, List.append_assoc]
    have lplain : plain.length = 12 + cf.length := by
      simp [hplain, lA, lB, lC, lD, lE]
      omega
    set mic := generate_mic cmac app_key ([0x20] ++ plain) with hmic
    have lmic : mic.length = 4 := by
      rw [hmic]
      simp [generate_mic, hcm]
    have hgen : JoinAccept.generate aesDec cmac app_key ⟨an, ni, da, ⟨o, d⟩, rx, cf⟩ =
        [0x20] ++ aesDec app_key (plain ++ mic) := by
      simp only [JoinAccept.generate, mhdr_joinaccept_generate, hmic, hplain, hA, hB, hC,
        hD, hE]
    rw [hgen]
    have lpm : (plain ++ mic).length = 16 + cf.length := by
      simp [lplain, lmic]
      omega
    have lbody : (aesDec app_key (plain ++ mic)).length = 16 + cf.length := by
      rw [hdlen, lpm]
    have ldecoded : ([0x20] ++ aesDec app_key (plain ++ mic)).length = 17 + cf.length := by
      simp [lbody]
      omega
    unfold JoinAccept.parse
    rw [if_neg (by rw [ldecoded]; omega)]
    rw [take_append_len (by rfl), mhdr_parse_0x20]
    simp only
    rw [if_neg (by simp)]
    rw [drop_append_len (by rfl)]
    rw [hinv (plain ++ mic) (by rw [lpm]; rcases hcf with h | h <;> rw [h])]
    have hsub : (plain ++ mic).length - 4 = plain.length := by
      simp [lmic]
    rw [hsub, List.take_left, List.drop_left]
    rw [if_neg (by rw [mhdr_joinaccept_generate, hmic]; simp)]
    have t3 : plain.take 3 = A := by rw [hplain']; exact take_append_len lA
    have d3 : plain.drop 3 = B ++ (C ++ (D ++ (E' ++ cf))) := by
      rw [hplain']; exact drop_append_len lA
    have d6 : plain.drop 6 = C ++ (D ++ (E' ++ cf)) := by
      rw [show (6 : Nat) = 3 + 3 from rfl, ← List.drop_drop, d3]
      exact drop_append_len lB
    have d10 : plain.drop 10 = D ++ (E' ++ cf) := by
      rw [show (10 : Nat) = 6 + 4 from rfl, ← List.drop_drop, d6]
      exact drop_append_len lC
    have d11 : plain.drop 11 = E' ++ cf := by
      rw [show (11 : Nat) = 10 + 1 from rfl, ← List.drop_drop, d10]
      exact drop_append_len lD
    have d12 : plain.drop 12 = cf := by
      rw [show (12 : Nat) = 11 + 1 from rfl, ← List.drop_drop, d11]
      exact drop_append_len lE
    rw [t3, d3, d6, d10, d11, d12]
    rw [take_append_len lB, take_append_len lC, take_append_len lD, take_append_len lE]
    rw [hA, hB, hC, hE]
    rw [fromLE_toLE 3 an (by norm_num at han ⊢; omega),
      fromLE_toLE 3 ni (by norm_num at hni ⊢; omega),
      fromLE_toLE 4 da (by norm_num at hda ⊢; omega),
      fromLE_toLE 1 rx (by norm_num at hrx ⊢; omega)]
    rw [hD, dlsettings_roundtrip o d ho hd]
  · unfold JoinAccept.parse
    rw [if_neg (by omega), hwh, mhdr_parse_0x20]
    simp only
    rw [if_neg (by simp)]
    rw [if_pos (by rw [mhdr_joinaccept_generate]; simpa using hmis)]

/-- C3 witness: the round-trip and MIC-rejection theorem applied to a
concrete join-accept, key, cipher instance, and corrupted wire buffer. -/
theorem c3_joinaccept_roundtrip_witness :
    JoinAccept.parse (fun _ b => b) (fun _ _ => List.replicate 16 0) []
        (JoinAccept.generate (fun _ b => b) (fun _ _ => List.replicate 16 0) []
          ⟨1, 2, 3, ⟨1, 2⟩, 4, []⟩) = .ok ⟨1, 2, 3, ⟨1, 2⟩, 4, []⟩ ∧
    JoinAccept.parse (fun _ b => b) (fun _ _ => List.replicate 16 0) []
        (0x20 :: (List.replicate 12 0 ++ [9, 9, 9, 9])) = .error .micError :=
  c3_joinaccept_roundtrip (fun _ b => b) (fun _ b => b)
    (fun _ _ => List.replicate 16 0) [] ⟨1, 2, 3, ⟨1, 2⟩, 4, []⟩
    (0x20 :: (List.replicate 12 0 ++ [9, 9, 9, 9]))
    (fun _ => rfl) (fun _ => rfl) (fun _ _ => rfl)
    (by decide) (by decide) (by decide) (by decide) (by decide) (by decide)
    (Or.inl rfl) (by decide) (by decide) (by decide)

/-- C10 witness: the NameError result at a concrete input. -/
theorem c10_verify_mic_join_accept_always_nameerror_witness :
    verify_mic_join_accept ⟨0, 0, 0, ⟨0, 0⟩, 0, []⟩ [] = .error .nameError ∧
    ("phy_payload" ∈ commonModuleNames → False) ∧
    ("generate_mic_join_accept" ∈ commonModuleNames → False) :=
  c10_verify_mic_join_accept_always_nameerror ⟨0, 0, 0, ⟨0, 0⟩, 0, []⟩ []
